import Mathlib

/-!
Verification of the restaurant backend HTTP bootstrap (server.js and its
JWT variant). The definitions below are a shallow embedding of the
configuration objects and the small pieces of conditional logic the server
wires together: the CORS origin gate, the explicit preflight handler, the
two rate limiters, the session cookie policy, the central error
translator, the 404 fallback, the health endpoint, and the graceful
shutdown sequence. JavaScript machine behaviour is made explicit: option
values that may be absent are Option, the falsiness of 0 and of the empty
string in a JS disjunction is spelled out in dedicated helpers, and the
regular expressions of the CORS allow-list are compiled by hand to
decidable character-list predicates.
-/

/-- A character JS regex `.` does not match: the four ECMAScript line
terminators (LF, CR, LS, PS). -/
def isLineTerm (c : Char) : Bool :=
  c == '\n' || c == '\r' || c.val == 0x2028 || c.val == 0x2029

/-- JS `\d+`: a nonempty run of ASCII digits. -/
def digits1 (cs : List Char) : Bool :=
  !cs.isEmpty && cs.all Char.isDigit

/-- The regex of server.js line 39: matches s exactly when s is the
literal prefix, then any run of non-line-terminator characters, then the
literal suffix `.vercel.app`. -/
def matchesVercelPattern (s : String) : Bool :=
  let pre := "https://restaurant-frontend".data
  let suf := ".vercel.app".data
  let rest := s.data.drop pre.length
  pre.isPrefixOf s.data && suf.isSuffixOf rest
    && (rest.take (rest.length - suf.length)).all (fun c => !isLineTerm c)

/-- The regex of server.js line 40: `http://localhost:` followed by one or
more digits, anchored at both ends. -/
def matchesLocalhostPattern (s : String) : Bool :=
  let pre := "http://localhost:".data
  pre.isPrefixOf s.data && digits1 (s.data.drop pre.length)

/-- The regex of server.js line 41: `http://127.0.0.1:` followed by one or
more digits, anchored at both ends. -/
def matchesLoopbackPattern (s : String) : Bool :=
  let pre := "http://127.0.0.1:".data
  pre.isPrefixOf s.data && digits1 (s.data.drop pre.length)

/-- The `allowedPatterns` array of server.js lines 38 through 42, as
decidable predicates. -/
def allowedPatterns : List (String → Bool) :=
  [matchesVercelPattern, matchesLocalhostPattern, matchesLoopbackPattern]

/-- The fallback allow-list of server.js lines 31 through 35, used when the
ALLOWED_ORIGINS environment variable is not set. -/
def defaultAllowedOrigins : List String :=
  ["http://localhost:3000", "http://localhost:3001", "http://localhost:5173"]

/-- server.js lines 29 and 30: `process.env.ALLOWED_ORIGINS` split on commas
and trimmed when the variable is set and nonempty (the empty string is falsy
in JS, so it also selects the default list). -/
def parseAllowedOrigins (envVal : Option String) : List String :=
  match envVal with
  | none => defaultAllowedOrigins
  | some v => if v == "" then defaultAllowedOrigins else (v.splitOn ",").map String.trim

/-- The cors origin callback of server.js lines 48 through 73: allow a
request with no Origin header; otherwise allow on exact membership in the
allow-list; otherwise allow when some configured pattern matches; otherwise
deny. true stands for `callback(null, true)`, false for
`callback(null, false)`. -/
def corsOriginCallback (allowedOrigins : List String) (origin : Option String) : Bool :=
  match origin with
  | none => true
  | some o =>
    if allowedOrigins.contains o then true
    else if allowedPatterns.any (fun p => p o) then true
    else false

/-- The condition of server.js line 84 guarding the preflight headers:
`!origin || allowedOrigins.includes(origin) || allowedPatterns.some(...)`. -/
def preflightOriginAllowed (allowedOrigins : List String) (origin : Option String) : Bool :=
  match origin with
  | none => true
  | some o => allowedOrigins.contains o || allowedPatterns.any (fun p => p o)

/-- The four Access-Control-* headers set by server.js lines 85 through 88;
the allow-origin value echoes the request origin, with `*` for an absent
one (`origin || '*'`). -/
def corsPreflightAllowHeaders (origin : Option String) : List (String × String) :=
  [("Access-Control-Allow-Origin", origin.getD "*"),
   ("Access-Control-Allow-Methods", "GET, POST, PUT, DELETE, OPTIONS, PATCH"),
   ("Access-Control-Allow-Headers", "Content-Type, Authorization, X-Requested-With, Accept"),
   ("Access-Control-Allow-Credentials", "true")]

structure PreflightResponse where
  status : Nat
  headers : List (String × String)
deriving DecidableEq

/-- The explicit OPTIONS handler of server.js lines 82 through 91: always
responds 204 (`res.sendStatus(204)`), and attaches the Access-Control-*
headers exactly when the guard of line 84 holds. -/
def preflightHandler (allowedOrigins : List String) (origin : Option String) : PreflightResponse :=
  { status := 204,
    headers :=
      if preflightOriginAllowed allowedOrigins origin then corsPreflightAllowHeaders origin
      else [] }

/-- The options passed to express-rate-limit in server.js: lines 137-143
for the global limiter and 147-152 for the auth limiter. Fields left unset
in the source carry the library defaults (standardHeaders false,
legacyHeaders true, skipSuccessfulRequests false). -/
structure RateLimitConfig where
  windowMs : Nat
  max : Nat
  message : String
  standardHeaders : Bool
  legacyHeaders : Bool
  skipSuccessfulRequests : Bool
deriving DecidableEq

/-- server.js lines 137 through 143. -/
def globalLimiter : RateLimitConfig :=
  { windowMs := 15 * 60 * 1000,
    max := 100,
    message := "Trop de requêtes depuis cette IP, veuillez réessayer plus tard.",
    standardHeaders := true,
    legacyHeaders := false,
    skipSuccessfulRequests := false }

/-- server.js lines 147 through 152. -/
def authLimiter : RateLimitConfig :=
  { windowMs := 15 * 60 * 1000,
    max := 10,
    message := "Trop de tentatives de connexion, veuillez réessayer dans 15 minutes.",
    standardHeaders := false,
    legacyHeaders := true,
    skipSuccessfulRequests := true }

/-- The per-client state of one express-rate-limit fixed window: when the
current window opened and how many hits it has counted. -/
structure LimState where
  windowStart : Nat
  hits : Nat
deriving DecidableEq

/-- A fresh window starts once the old one has elapsed. -/
def resetIfExpired (cfg : RateLimitConfig) (st : LimState) (t : Nat) : LimState :=
  if st.windowStart + cfg.windowMs ≤ t then { windowStart := t, hits := 0 } else st

/-- One request through an express-rate-limit counter at time t. The hit is
counted first and the request passes while the count stays within max; with
skipSuccessfulRequests, a request that passed and then completed
successfully (response status below 400) is uncounted again afterwards.
Returns (request allowed, next state). -/
def limStep (cfg : RateLimitConfig) (st : LimState) (t : Nat) (success : Bool) :
    Bool × LimState :=
  let st1 := resetIfExpired cfg st t
  let hits := st1.hits + 1
  let allowed := decide (hits ≤ cfg.max)
  let hitsAfter := if cfg.skipSuccessfulRequests && success && allowed then hits - 1 else hits
  (allowed, { windowStart := st1.windowStart, hits := hitsAfter })

/-- Run a sequence of (arrival time, completed successfully) requests from
one client through a limiter, collecting the allow/deny verdicts. -/
def limRun (cfg : RateLimitConfig) (st : LimState) : List (Nat × Bool) → List Bool
  | [] => []
  | r :: rs =>
    let out := limStep cfg st r.1 r.2
    out.1 :: limRun cfg out.2 rs

/-- The cookie block of the session options, server.js lines 174 through
180. -/
structure CookieOptions where
  maxAge : Nat
  httpOnly : Bool
  secure : Bool
  sameSite : String
deriving DecidableEq

/-- The session options object of server.js lines 164 through 183 (the
store is an external collaborator and is not modelled). -/
structure SessionOptions where
  secret : String
  resave : Bool
  saveUninitialized : Bool
  name : String
  cookie : CookieOptions
  rolling : Bool
  proxy : Bool
deriving DecidableEq

/-- JS `x || d` for a possibly-absent string: the empty string is falsy. -/
def jsOrStr (x : Option String) (d : String) : String :=
  match x with
  | none => d
  | some s => if s == "" then d else s

/-- sessionConfig of server.js lines 164 through 183, as a function of the
NODE_ENV and SESSION_SECRET environment variables (none models an unset
variable). -/
def sessionConfig (env : Option String) (secretEnv : Option String) : SessionOptions :=
  { secret := jsOrStr secretEnv "dev-secret-change-in-production",
    resave := false,
    saveUninitialized := false,
    name := "sessionId",
    cookie :=
      { maxAge := 24 * 60 * 60 * 1000,
        httpOnly := true,
        secure := env == some "production",
        sameSite := if env == some "production" then "none" else "lax" },
    rolling := true,
    proxy := true }

/-- An error thrown by a downstream handler, as the global error middleware
reads it: an optional numeric status field, the message, the stack, and the
rendering err.toString() would give. -/
structure JsError where
  status : Option Nat
  message : String
  stack : String
  toStr : String
deriving DecidableEq

/-- JS `x || d` for a possibly-absent number: 0 is falsy, so a present
status of 0 still falls back to the default. -/
def jsOrNat (x : Option Nat) (d : Nat) : Nat :=
  match x with
  | none => d
  | some n => if n = 0 then d else n

/-- The JSON error envelope produced by the global error middleware; the
stack and details fields are only spread into the body in development. -/
structure ErrorResponse where
  status : Nat
  error : String
  stack : Option String
  details : Option String
deriving DecidableEq

/-- The global error middleware of server.js lines 279 through 294: status
from `err.status || 500`; the message is the generic fixed string exactly in
production and the real error text otherwise; stack and details are present
exactly in development. -/
def errorHandler (env : Option String) (err : JsError) : ErrorResponse :=
  { status := jsOrNat err.status 500,
    error := if env == some "production" then "Erreur serveur interne" else err.message,
    stack := if env == some "development" then some err.stack else none,
    details := if env == some "development" then some err.toStr else none }

/-- JS truthiness of a possibly-absent number (used for
`req.session.userId ? ... : ...`). -/
def jsTruthyNat (x : Option Nat) : Bool :=
  match x with
  | none => false
  | some n => n != 0

/-- The body of the GET /health response, server.js lines 233 through 243. -/
structure HealthBody where
  status : String
  message : String
  timestamp : String
  environment : Option String
  session : String
  database : String
  cors : String
deriving DecidableEq

/-- The GET /health handler of server.js lines 233 through 243. The last
two parameters model the outcome of the startup connectivity probe of
lines 113 through 121 and the current reachability of the pool; the handler
consults neither and reports the database as the constant string
`connected`. -/
def healthHandler (env : Option String) (sessionUserId : Option Nat) (timestamp : String)
    (startupProbeOk : Bool) (poolReachable : Bool) : HealthBody :=
  { status := "OK",
    message := "Serveur opérationnel",
    timestamp := timestamp,
    environment := env,
    session := if jsTruthyNat sessionUserId then "active" else "none",
    database := "connected",
    cors := "wildcard enabled" }

/-- An inbound HTTP request as this unit observes it. -/
structure Request where
  method : String
  path : String
  origin : Option String
  sessionUserId : Option Nat
  timestamp : String
deriving DecidableEq

/-- The 404 envelope of server.js lines 256 through 274. -/
structure NotFoundBody where
  error : String
  path : String
  method : String
  availableRoutes : List String
deriving DecidableEq

/-- The body built by the 404 fallback middleware, echoing the requested
path and method. -/
def notFoundBody (path : String) (method : String) : NotFoundBody :=
  { error := "Route non trouvée",
    path := path,
    method := method,
    availableRoutes :=
      ["GET /", "GET /health", "POST /auth/login", "POST /auth/logout", "GET /auth/me",
       "GET /settings", "GET /users", "GET /reservations", "GET /menus", "GET /dashboard"] }

/-- The six mount points of server.js lines 246 through 251. -/
def mountedRoutes : List String :=
  ["/auth", "/settings", "/users", "/reservations", "/menus", "/dashboard"]

/-- Express mount matching for app.use(mount, ...): the path equals the
mount point or continues it at a path-segment boundary. -/
def mountMatches (mount : String) (path : String) : Bool :=
  path == mount || (mount ++ "/").data.isPrefixOf path.data

/-- What the middleware chain produces for a request, by kind: the direct
preflight answer, the two in-unit endpoints, delegation to a mounted route
group (an external collaborator), or the 404 fallback. -/
inductive AppResponse where
  | preflight (r : PreflightResponse)
  | rootBanner
  | health (b : HealthBody)
  | delegated (mount : String)
  | notFound (status : Nat) (b : NotFoundBody)
deriving DecidableEq

/-- Whether a response came from the 404 fallback. -/
def respondsNotFound : AppResponse → Bool
  | AppResponse.notFound _ _ => true
  | _ => false

/-- The dispatch order of server.js: the explicit OPTIONS handler (line 82)
answers every preflight before any route is consulted; then GET / and
GET /health; then the six mounted route groups; a request nothing matched
falls through to the 404 middleware of lines 256 through 274. -/
def handleRequest (allowedOrigins : List String) (env : Option String)
    (startupProbeOk : Bool) (poolReachable : Bool) (req : Request) : AppResponse :=
  if req.method == "OPTIONS" then
    AppResponse.preflight (preflightHandler allowedOrigins req.origin)
  else if req.path == "/" then
    AppResponse.rootBanner
  else if req.path == "/health" then
    AppResponse.health (healthHandler env req.sessionUserId req.timestamp startupProbeOk poolReachable)
  else
    match mountedRoutes.find? (fun m => mountMatches m req.path) with
    | some m => AppResponse.delegated m
    | none => AppResponse.notFound 404 (notFoundBody req.path req.method)

/-- The 10000 ms hard deadline of server.js line 350. -/
def shutdownDeadlineMs : Nat := 10000

/-- The observable events of the shutdown sequence of server.js lines 335
through 351. -/
inductive ShutdownEvent where
  | signalReceived
  | httpServerClosed
  | poolClosed
  | exited (code : Nat)
deriving DecidableEq

/-- The timed event trace of one run of gracefulShutdown. drainMs is the
time at which server.close reports the listener stopped and all in-flight
requests finished (none when draining never completes); poolEndMs is the
further time pool.end takes after that (none when it never completes).
The nested callbacks of the source order the events: pool.end is only
started from inside the server.close callback, and process.exit(0) only
from inside the pool.end callback; the 10-second timer of line 347 forces
process.exit(1) when that chain has not exited first. -/
def gracefulShutdownTrace (drainMs : Option Nat) (poolEndMs : Option Nat) :
    List (Nat × ShutdownEvent) :=
  match drainMs with
  | none => [(0, ShutdownEvent.signalReceived), (shutdownDeadlineMs, ShutdownEvent.exited 1)]
  | some d =>
    if shutdownDeadlineMs ≤ d then
      [(0, ShutdownEvent.signalReceived), (shutdownDeadlineMs, ShutdownEvent.exited 1)]
    else
      match poolEndMs with
      | none =>
        [(0, ShutdownEvent.signalReceived), (d, ShutdownEvent.httpServerClosed),
         (shutdownDeadlineMs, ShutdownEvent.exited 1)]
      | some p =>
        if shutdownDeadlineMs ≤ d + p then
          [(0, ShutdownEvent.signalReceived), (d, ShutdownEvent.httpServerClosed),
           (shutdownDeadlineMs, ShutdownEvent.exited 1)]
        else
          [(0, ShutdownEvent.signalReceived), (d, ShutdownEvent.httpServerClosed),
           (d + p, ShutdownEvent.poolClosed), (d + p, ShutdownEvent.exited 0)]

/-- The two process-level fault events server.js registers handlers for at
lines 356 through 363. -/
inductive ProcessFault where
  | uncaughtException
  | unhandledRejection
deriving DecidableEq, BEq

/-- What a fault handler does: invoke gracefulShutdown, or only write to
the console and let the process continue. -/
inductive FaultReaction where
  | gracefulShutdownTriggered
  | loggedOnly
deriving DecidableEq, BEq

/-- The registered handlers: the uncaughtException handler of line 360
calls gracefulShutdown; the unhandledRejection handler of line 356 only
logs the reason and returns. -/
def processFaultHandler : ProcessFault → FaultReaction
  | ProcessFault.uncaughtException => FaultReaction.gracefulShutdownTriggered
  | ProcessFault.unhandledRejection => FaultReaction.loggedOnly

/-! ## Theorems -/

/-- The guard of the explicit preflight handler computes the same
allow/deny decision as the cors origin callback. -/
theorem preflightOriginAllowed_eq_corsOriginCallback (allowedOrigins : List String)
    (origin : Option String) :
    preflightOriginAllowed allowedOrigins origin = corsOriginCallback allowedOrigins origin := by
  cases origin with
  | none => rfl
  | some o =>
    simp only [preflightOriginAllowed, corsOriginCallback]
    cases hc : allowedOrigins.contains o <;>
      cases ha : allowedPatterns.any (fun p => p o) <;> simp [hc, ha]

/-- C1: the CORS gate allows a request with no Origin header; allows an
origin that is an exact member of the configured allow-list; allows an
origin matched by at least one of the three configured regex patterns
(Vercel preview host, any localhost port, any 127.0.0.1 port); and denies
every other origin. -/
theorem corsOriginCallback_spec (allowedOrigins : List String) (origin : Option String) :
    corsOriginCallback allowedOrigins origin = true ↔
      origin = none ∨ ∃ o, origin = some o ∧
        (o ∈ allowedOrigins ∨ matchesVercelPattern o = true ∨
          matchesLocalhostPattern o = true ∨ matchesLoopbackPattern o = true) := by
  cases origin with
  | none => simp [corsOriginCallback]
  | some o =>
    simp only [corsOriginCallback, allowedPatterns]
    cases hc : allowedOrigins.contains o
    · cases hv : matchesVercelPattern o <;>
        cases hl : matchesLocalhostPattern o <;>
        cases hb : matchesLoopbackPattern o <;>
        simp_all
    · simp_all

/-- Concrete instance of the C1 theorem: an unlisted localhost port is
allowed through the pattern, an unrelated https origin is denied. -/
theorem corsOriginCallback_spec_witness :
    corsOriginCallback defaultAllowedOrigins (some "http://localhost:9999") = true
    ∧ corsOriginCallback defaultAllowedOrigins (some "https://evil.example.com") = false := by
  constructor
  · exact (corsOriginCallback_spec defaultAllowedOrigins (some "http://localhost:9999")).mpr
      (Or.inr ⟨"http://localhost:9999", rfl, Or.inr (Or.inr (Or.inl (by decide)))⟩)
  · decide

/-- C2 counterexample: an unhandled asynchronous rejection does not trigger
the graceful-shutdown sequence — its registered handler only logs and lets
the process continue, refuting the claim that every process-level fault
shuts the server down. -/
theorem unhandledRejection_not_shutdown_counterexample :
    processFaultHandler ProcessFault.unhandledRejection = FaultReaction.loggedOnly
    ∧ (processFaultHandler ProcessFault.unhandledRejection
        == FaultReaction.gracefulShutdownTriggered) = false := by
  exact ⟨rfl, rfl⟩

/-- C2 (amended): an uncaught exception triggers the graceful-shutdown
sequence, but an unhandled asynchronous rejection is only logged and the
process continues without shutting down. -/
theorem processFaultHandler_amended :
    processFaultHandler ProcessFault.uncaughtException = FaultReaction.gracefulShutdownTriggered
    ∧ processFaultHandler ProcessFault.unhandledRejection = FaultReaction.loggedOnly :=
  ⟨rfl, rfl⟩

/-- C3 counterexample: an error carrying the (present) status code 0 is
answered with status 500, not with its own status code — `err.status || 500`
falls back on any falsy status, so "status code from the error when
present" fails at status 0. -/
theorem errorHandler_status_zero_counterexample :
    (errorHandler none
        { status := some 0, message := "boom", stack := "trace", toStr := "Error: boom" }).status
      = 500
    ∧ ((errorHandler none
        { status := some 0, message := "boom", stack := "trace", toStr := "Error: boom" }).status
      == 0) = false := by
  exact ⟨rfl, rfl⟩

/-- C3 (amended): the central error translator responds with the error
status when one is present and nonzero, and 500 otherwise (a present
status of 0 is falsy in `err.status || 500` and also falls back to 500);
the message is the real error text exactly when NODE_ENV is not
production and the fixed generic string when it is; and the stack trace is
in the body exactly when NODE_ENV is development. -/
theorem errorHandler_spec (env : Option String) (err : JsError) :
    (∀ s : Nat, err.status = some s → s ≠ 0 → (errorHandler env err).status = s)
    ∧ ((err.status = none ∨ err.status = some 0) → (errorHandler env err).status = 500)
    ∧ (env = some "production" → (errorHandler env err).error = "Erreur serveur interne")
    ∧ (env ≠ some "production" → (errorHandler env err).error = err.message)
    ∧ ((errorHandler env err).stack = some err.stack ↔ env = some "development") := by
  refine ⟨?_, ?_, ?_, ?_, ?_⟩
  · intro s hs hs0
    simp [errorHandler, jsOrNat, hs, hs0]
  · rintro (h | h) <;> simp [errorHandler, jsOrNat, h]
  · intro h
    simp [errorHandler, h]
  · intro h
    simp [errorHandler, h]
  · constructor
    · intro hst
      by_cases hd : env = some "development"
      · exact hd
      · simp [errorHandler, hd] at hst
    · intro hd
      simp [errorHandler, hd]

/-- One limiter step inside the current window, for a request that stays
counted (it failed, or the limiter does not skip successful requests):
the hit count rises by one and the request is allowed exactly while the
new count stays within max. -/
theorem limStep_counted (cfg : RateLimitConfig) (st : LimState) (t : Nat) (s : Bool)
    (hwin : t < st.windowStart + cfg.windowMs)
    (hs : s = false ∨ cfg.skipSuccessfulRequests = false) :
    limStep cfg st t s
      = (decide (st.hits + 1 ≤ cfg.max), { windowStart := st.windowStart, hits := st.hits + 1 }) := by
  have h1 : ¬ (st.windowStart + cfg.windowMs ≤ t) := by omega
  rcases hs with h | h <;> simp [limStep, resetIfExpired, h1, h]

/-- Running counted requests that all arrive inside the current window
from a count of k: the i-th request (0-based) is allowed exactly when
k + i + 1 stays within max. -/
theorem limRun_counted (cfg : RateLimitConfig) (t0 : Nat) :
    ∀ (reqs : List (Nat × Bool)) (k : Nat),
      (∀ r ∈ reqs, r.1 < t0 + cfg.windowMs ∧ (r.2 = false ∨ cfg.skipSuccessfulRequests = false)) →
      limRun cfg { windowStart := t0, hits := k } reqs
        = (List.range reqs.length).map (fun i => decide (k + i + 1 ≤ cfg.max)) := by
  intro reqs
  induction reqs with
  | nil =>
    intro k _
    simp [limRun]
  | cons r rs ih =>
    intro k h
    have hr := h r (List.mem_cons_self r rs)
    have hrest : ∀ x ∈ rs, x.1 < t0 + cfg.windowMs ∧
        (x.2 = false ∨ cfg.skipSuccessfulRequests = false) :=
      fun x hx => h x (List.mem_cons_of_mem r hx)
    simp only [limRun]
    rw [limStep_counted cfg _ r.1 r.2 hr.1 hr.2]
    rw [ih (k + 1) hrest]
    rw [List.length_cons, List.range_succ_eq_map, List.map_cons, List.map_map]
    have harith : ∀ i : Nat, k + Nat.succ i + 1 = k + 1 + i + 1 := fun i => by omega
    simp [Function.comp, harith]

/-- C4: the auth-scoped limiter counts only failed authentication requests
from a client within its 15-minute window against a cap of 10: eleven
consecutive failed attempts inside one window see the first ten allowed
and the eleventh rejected, while a successful request inside the window
leaves the failure counter unchanged. -/
theorem authLimiter_caps_failed_attempts (t0 : Nat) (ts : List Nat)
    (hlen : ts.length = 11)
    (hwin : ∀ t ∈ ts, t < t0 + authLimiter.windowMs) :
    limRun authLimiter { windowStart := t0, hits := 0 } (ts.map (fun t => (t, false)))
      = List.replicate 10 true ++ [false]
    ∧ authLimiter.windowMs = 15 * 60 * 1000
    ∧ authLimiter.max = 10
    ∧ authLimiter.skipSuccessfulRequests = true
    ∧ ∀ (st : LimState) (t : Nat), t < st.windowStart + authLimiter.windowMs →
        st.hits + 1 ≤ authLimiter.max →
        ((limStep authLimiter st t true).2).hits = st.hits := by
  refine ⟨?_, rfl, rfl, rfl, ?_⟩
  · rw [limRun_counted authLimiter t0 (ts.map (fun t => (t, false))) 0 ?_]
    · rw [List.length_map, hlen]
      decide
    · intro r hr
      simp only [List.mem_map] at hr
      obtain ⟨t, ht, rfl⟩ := hr
      exact ⟨hwin t ht, Or.inl rfl⟩
  · intro st t h1 h2
    have h3 : ¬ (st.windowStart + authLimiter.windowMs ≤ t) := by omega
    have h4 : decide (st.hits + 1 ≤ authLimiter.max) = true := decide_eq_true h2
    have h5 : authLimiter.skipSuccessfulRequests = true := rfl
    simp [limStep, resetIfExpired, h3, h4, h5]

/-- Concrete instance of the C4 theorem: eleven failed attempts in the
first second of the window, and a successful request from a count of 3. -/
theorem authLimiter_caps_failed_attempts_witness :
    limRun authLimiter { windowStart := 0, hits := 0 }
        (([0, 1, 2, 3, 4, 5, 6, 7, 8, 9, 10] : List Nat).map (fun t => (t, false)))
      = List.replicate 10 true ++ [false]
    ∧ ((limStep authLimiter { windowStart := 0, hits := 3 } 5 true).2).hits = 3 := by
  have h := authLimiter_caps_failed_attempts 0 [0, 1, 2, 3, 4, 5, 6, 7, 8, 9, 10]
    (by decide) (by decide)
  exact ⟨h.1, h.2.2.2.2 { windowStart := 0, hits := 3 } 5 (by decide) (by decide)⟩

/-- C5: the global limiter caps each client at 100 requests per 15-minute
window: 101 requests from one client inside one window, whatever their
outcomes, see the first 100 allowed and the 101st rejected, with the fixed
rejection text and the standard rate-limit headers configured. -/
theorem globalLimiter_caps_requests (t0 : Nat) (reqs : List (Nat × Bool))
    (hlen : reqs.length = 101)
    (hwin : ∀ r ∈ reqs, r.1 < t0 + globalLimiter.windowMs) :
    limRun globalLimiter { windowStart := t0, hits := 0 } reqs
      = List.replicate 100 true ++ [false]
    ∧ globalLimiter.windowMs = 15 * 60 * 1000
    ∧ globalLimiter.max = 100
    ∧ globalLimiter.message = "Trop de requêtes depuis cette IP, veuillez réessayer plus tard."
    ∧ globalLimiter.standardHeaders = true
    ∧ globalLimiter.legacyHeaders = false := by
  refine ⟨?_, rfl, rfl, rfl, rfl, rfl⟩
  rw [limRun_counted globalLimiter t0 reqs 0 (fun r hr => ⟨hwin r hr, Or.inr rfl⟩)]
  rw [hlen]
  decide

/-- Concrete instance of the C5 theorem: 101 requests in the first 101
milliseconds of the window. -/
theorem globalLimiter_caps_requests_witness :
    limRun globalLimiter { windowStart := 0, hits := 0 }
        ((List.range 101).map (fun i => (i, true)))
      = List.replicate 100 true ++ [false] := by
  have h := globalLimiter_caps_requests 0 ((List.range 101).map (fun i => (i, true)))
    (by simp) (by decide)
  exact h.1

/-- C6: in every run of the shutdown sequence, the pool-closed event only
occurs after the HTTP listener has closed (in-flight work drained), and
whenever draining and pool closing have not completed inside the 10-second
hard deadline the trace ends in a forced exit with the non-zero code 1 at
the deadline, with no clean exit. -/
theorem gracefulShutdown_order_and_deadline (drainMs poolEndMs : Option Nat) :
    (∀ t : Nat, (t, ShutdownEvent.poolClosed) ∈ gracefulShutdownTrace drainMs poolEndMs →
      ∃ d, drainMs = some d ∧ d ≤ t ∧
        (d, ShutdownEvent.httpServerClosed) ∈ gracefulShutdownTrace drainMs poolEndMs)
    ∧ ((∀ d p : Nat, drainMs = some d → poolEndMs = some p → shutdownDeadlineMs ≤ d + p) →
        (shutdownDeadlineMs, ShutdownEvent.exited 1) ∈ gracefulShutdownTrace drainMs poolEndMs
        ∧ ∀ t : Nat, (t, ShutdownEvent.exited 0) ∉ gracefulShutdownTrace drainMs poolEndMs) := by
  cases drainMs with
  | none =>
    refine ⟨?_, ?_⟩
    · intro t ht
      simp [gracefulShutdownTrace] at ht
    · intro _
      refine ⟨by simp [gracefulShutdownTrace], ?_⟩
      intro t ht
      simp [gracefulShutdownTrace, shutdownDeadlineMs] at ht
  | some d =>
    by_cases hd : shutdownDeadlineMs ≤ d
    · refine ⟨?_, ?_⟩
      · intro t ht
        simp [gracefulShutdownTrace, hd] at ht
      · intro _
        refine ⟨by simp [gracefulShutdownTrace, hd], ?_⟩
        intro t ht
        simp [gracefulShutdownTrace, hd] at ht
    · cases poolEndMs with
      | none =>
        refine ⟨?_, ?_⟩
        · intro t ht
          simp [gracefulShutdownTrace, hd] at ht
        · intro _
          refine ⟨by simp [gracefulShutdownTrace, hd], ?_⟩
          intro t ht
          simp [gracefulShutdownTrace, hd] at ht
      | some p =>
        by_cases hp : shutdownDeadlineMs ≤ d + p
        · refine ⟨?_, ?_⟩
          · intro t ht
            simp [gracefulShutdownTrace, hd, hp] at ht
          · intro _
            refine ⟨by simp [gracefulShutdownTrace, hd, hp], ?_⟩
            intro t ht
            simp [gracefulShutdownTrace, hd, hp] at ht
        · refine ⟨?_, ?_⟩
          · intro t ht
            simp [gracefulShutdownTrace, hd, hp] at ht
            refine ⟨d, rfl, ?_, ?_⟩
            · omega
            · simp [gracefulShutdownTrace, hd, hp]
          · intro hfin
            exact absurd (hfin d p rfl rfl) hp

/-- C7: for every environment, the session cookie has a 24-hour lifetime,
is refreshed on every request (rolling), is HTTP-only, and carries
secure with sameSite none exactly in production and non-secure with
sameSite lax exactly otherwise. -/
theorem sessionConfig_cookie_policy (env secretEnv : Option String) :
    (sessionConfig env secretEnv).cookie.maxAge = 24 * 60 * 60 * 1000
    ∧ (sessionConfig env secretEnv).rolling = true
    ∧ (sessionConfig env secretEnv).cookie.httpOnly = true
    ∧ (((sessionConfig env secretEnv).cookie.secure = true
        ∧ (sessionConfig env secretEnv).cookie.sameSite = "none") ↔ env = some "production")
    ∧ (((sessionConfig env secretEnv).cookie.secure = false
        ∧ (sessionConfig env secretEnv).cookie.sameSite = "lax") ↔ env ≠ some "production") := by
  by_cases h : env = some "production" <;>
    simp [sessionConfig, h]

/-- C8: every preflight OPTIONS request is answered directly by the
preflight handler, before any route dispatch; the answer is a 204 whose
Access-Control-* headers are present exactly when the CORS gate allows the
origin (absent, exact-matched, or pattern-matched), and absent otherwise. -/
theorem preflight_answered_directly (allowedOrigins : List String) (env : Option String)
    (startupProbeOk poolReachable : Bool) (req : Request)
    (h : req.method = "OPTIONS") :
    handleRequest allowedOrigins env startupProbeOk poolReachable req
      = AppResponse.preflight (preflightHandler allowedOrigins req.origin)
    ∧ (preflightHandler allowedOrigins req.origin).status = 204
    ∧ ((preflightHandler allowedOrigins req.origin).headers
        = corsPreflightAllowHeaders req.origin
      ↔ corsOriginCallback allowedOrigins req.origin = true)
    ∧ (corsOriginCallback allowedOrigins req.origin = false →
        (preflightHandler allowedOrigins req.origin).headers = []) := by
  refine ⟨?_, rfl, ?_, ?_⟩
  · simp [handleRequest, h]
  · rw [preflightHandler]
    cases hc : corsOriginCallback allowedOrigins req.origin
    · rw [preflightOriginAllowed_eq_corsOriginCallback, hc]
      simp [corsPreflightAllowHeaders]
    · rw [preflightOriginAllowed_eq_corsOriginCallback, hc]
      simp
  · intro hc
    rw [preflightHandler, preflightOriginAllowed_eq_corsOriginCallback, hc]
    simp

/-- Concrete instance of the C8 theorem: an OPTIONS request to
/reservations from a listed origin is answered 204 with the
Access-Control-* headers before dispatch. -/
theorem preflight_answered_directly_witness :
    handleRequest defaultAllowedOrigins none true true
        { method := "OPTIONS", path := "/reservations", origin := some "http://localhost:3000",
          sessionUserId := none, timestamp := "t" }
      = AppResponse.preflight
          (preflightHandler defaultAllowedOrigins (some "http://localhost:3000"))
    ∧ (preflightHandler defaultAllowedOrigins (some "http://localhost:3000")).status = 204
    ∧ (preflightHandler defaultAllowedOrigins (some "http://localhost:3000")).headers
        = corsPreflightAllowHeaders (some "http://localhost:3000") := by
  have h := preflight_answered_directly defaultAllowedOrigins none true true
    { method := "OPTIONS", path := "/reservations", origin := some "http://localhost:3000",
      sessionUserId := none, timestamp := "t" } rfl
  exact ⟨h.1, h.2.1, h.2.2.1.mpr (by decide)⟩

/-- C9 counterexample: an OPTIONS request to a path no route mounts is
answered by the preflight handler with 204, not with the 404 envelope, so
the 404 claim does not hold for every request to an unmounted path. -/
theorem options_unmatched_route_counterexample :
    mountedRoutes.all (fun m => !(mountMatches m "/no-such-route")) = true
    ∧ handleRequest defaultAllowedOrigins none true true
        { method := "OPTIONS", path := "/no-such-route", origin := none,
          sessionUserId := none, timestamp := "t" }
      = AppResponse.preflight { status := 204, headers := corsPreflightAllowHeaders none }
    ∧ respondsNotFound (handleRequest defaultAllowedOrigins none true true
        { method := "OPTIONS", path := "/no-such-route", origin := none,
          sessionUserId := none, timestamp := "t" }) = false := by
  refine ⟨by decide, by decide, by decide⟩

/-- C9 (amended): every non-preflight request (method other than OPTIONS)
whose path matches no mounted route and is neither of the two in-unit
endpoints receives status 404 with the fixed JSON envelope carrying an
error string, the requested path and the request method. -/
theorem unmatched_route_gets_404 (allowedOrigins : List String) (env : Option String)
    (startupProbeOk poolReachable : Bool) (req : Request)
    (hm : req.method ≠ "OPTIONS")
    (hroot : req.path ≠ "/")
    (hhealth : req.path ≠ "/health")
    (hmount : ∀ m ∈ mountedRoutes, mountMatches m req.path = false) :
    handleRequest allowedOrigins env startupProbeOk poolReachable req
      = AppResponse.notFound 404 (notFoundBody req.path req.method)
    ∧ (notFoundBody req.path req.method).error = "Route non trouvée"
    ∧ (notFoundBody req.path req.method).path = req.path
    ∧ (notFoundBody req.path req.method).method = req.method := by
  refine ⟨?_, rfl, rfl, rfl⟩
  have hfind : mountedRoutes.find? (fun m => mountMatches m req.path) = none :=
    List.find?_eq_none.mpr (fun m hmem => by simp [hmount m hmem])
  simp [handleRequest, hm, hroot, hhealth, hfind]

/-- Concrete instance of the C9 amended theorem: GET /no-such-route gets
the 404 envelope echoing the path and the method. -/
theorem unmatched_route_gets_404_witness :
    handleRequest defaultAllowedOrigins none true true
        { method := "GET", path := "/no-such-route", origin := none,
          sessionUserId := none, timestamp := "t" }
      = AppResponse.notFound 404 (notFoundBody "/no-such-route" "GET")
    ∧ (notFoundBody "/no-such-route" "GET").error = "Route non trouvée"
    ∧ (notFoundBody "/no-such-route" "GET").path = "/no-such-route"
    ∧ (notFoundBody "/no-such-route" "GET").method = "GET" := by
  exact unmatched_route_gets_404 defaultAllowedOrigins none true true
    { method := "GET", path := "/no-such-route", origin := none,
      sessionUserId := none, timestamp := "t" }
    (by decide) (by decide) (by decide) (by decide)

/-- C10: the GET /health response reports the database as the constant
string connected for every environment, session and timestamp, and the
whole response is independent of the outcome of the startup connectivity
probe and of the current reachability of the pool. -/
theorem health_database_constant (env : Option String) (sessionUserId : Option Nat)
    (timestamp : String) (startupProbeOk poolReachable altProbeOk altReachable : Bool) :
    (healthHandler env sessionUserId timestamp startupProbeOk poolReachable).database
      = "connected"
    ∧ healthHandler env sessionUserId timestamp startupProbeOk poolReachable
      = healthHandler env sessionUserId timestamp altProbeOk altReachable :=
  ⟨rfl, rfl⟩
